import Mathlib

/-!
Verification development for the on-host activation agent of a deployment
tool (three Rust source files: `src/lib.rs`, `src/data.rs`,
`src/bin/activate.rs`).

The external-command effects of the Rust code are shallowly embedded: every
external invocation (profile set, activation hook, the rollback steps, the
filesystem watch and channel) has its observable outcome supplied by an
environment record, and each operation returns the pair of its final outcome
(including an explicit `panic` case for Rust panics) and the trace of
commands it issued, in order.  Rust byte-indexed string slicing is embedded
at the byte level over `List Char` with UTF-8 sizes.
-/

/-! ## Byte-level string model (for `make_lock_path` in src/lib.rs) -/

/-- Total UTF-8 byte length of a character list, as Rust's `str::len`. -/
def utf8Len (cs : List Char) : Nat :=
  (cs.map Char.utf8Size).sum

/-- Whether byte index `i` is a character boundary of the string, as Rust's
`str::is_char_boundary` (false beyond the end of the string). -/
def charBoundary : List Char → Nat → Bool
  | _, 0 => true
  | [], _ + 1 => false
  | c :: cs, i + 1 =>
    if i + 1 < c.utf8Size then false
    else charBoundary cs (i + 1 - c.utf8Size)

/-- Drop the first `i` bytes of the string (meaningful when `i` is a
character boundary). -/
def byteDrop : List Char → Nat → List Char
  | cs, 0 => cs
  | [], _ + 1 => []
  | c :: cs, i + 1 => byteDrop cs (i + 1 - c.utf8Size)

/-- Take the first `i` bytes of the string (meaningful when `i` is a
character boundary). -/
def byteTake : List Char → Nat → List Char
  | _, 0 => []
  | [], _ + 1 => []
  | c :: cs, i + 1 => c :: byteTake cs (i + 1 - c.utf8Size)

/-- Byte index of the first occurrence of character `t`, as Rust's
`str::find` with a `char` pattern. -/
def findCharByte (t : Char) : List Char → Option Nat
  | [] => none
  | c :: cs =>
    if c = t then some 0
    else (findCharByte t cs).map (fun p => c.utf8Size + p)

/-- Rust string slicing `&s[a..b]`: `none` models the slice panic (range
inverted, out of range, or an endpoint not on a character boundary). -/
def rustByteSlice (cs : List Char) (a b : Nat) : Option (List Char) :=
  if a ≤ b ∧ b ≤ utf8Len cs ∧ charBoundary cs a ∧ charBoundary cs b then
    some (byteTake (byteDrop cs a) (b - a))
  else
    none

/-- Rust `Path::join` of a base path and a (relative, nonempty) file name. -/
def rustPathJoin (base name : String) : String :=
  if base.data = [] then name
  else if base.data.getLast? = some '/' then base ++ name
  else base ++ "/" ++ name

/-- Embedding of `make_lock_path` from src/lib.rs:

    let lock_hash = &closure["/nix/store/".len()..closure.find('-').unwrap_or(closure.len())];
    temp_path.join(format!("deploy-rs-canary-{}", lock_hash))

`none` models the Rust slice panic. -/
def make_lock_path (temp_path closure : String) : Option String :=
  let cs := closure.data
  let endIdx := (findCharByte '-' cs).getD (utf8Len cs)
  (rustByteSlice cs (utf8Len "/nix/store/".data) endIdx).map
    (fun hash => rustPathJoin temp_path ("deploy-rs-canary-" ++ String.mk hash))

/-! ## Rust `str::lines` and `split_whitespace().next()` (used by `deactivate`) -/

/-- Split a character list on a separator character; pieces do not contain
the separator, `n` separators yield `n+1` pieces. -/
def splitOnChar (sep : Char) : List Char → List (List Char)
  | [] => [[]]
  | c :: cs =>
    if c = sep then [] :: splitOnChar sep cs
    else
      match splitOnChar sep cs with
      | [] => [[c]]
      | p :: ps => (c :: p) :: ps

/-- Strip one trailing carriage return, as Rust's `strip_suffix('\r')`. -/
def stripCR (l : List Char) : List Char :=
  if l.getLast? = some '\r' then l.dropLast else l

/-- Post-process the pieces produced by splitting on a line feed: every piece
except the final one was terminated by a line feed, so its trailing carriage
return (if any) is stripped; the final unterminated piece is kept verbatim,
and dropped when empty (optional final line ending). -/
def linesOfPieces : List (List Char) → List (List Char)
  | [] => []
  | [last] => if last = [] then [] else [last]
  | p :: ps => stripCR p :: linesOfPieces ps

/-- Rust `str::lines` over the character list of the string. -/
def rustLines (s : String) : List (List Char) :=
  linesOfPieces (splitOnChar (Char.ofNat 10) s.data)

/-- Rust `line.split_whitespace().next()`: the first maximal run of
non-whitespace characters, if any. -/
def firstWhitespaceToken (l : List Char) : Option (List Char) :=
  match l.dropWhile (fun c => c.isWhitespace) with
  | [] => none
  | c :: cs => some ((c :: cs).takeWhile (fun c => !c.isWhitespace))

/-- The generation identifier `deactivate` extracts: the first
whitespace-delimited token of the last line of the list-generations output
(`none` when there is no line or the last line has no token; the Rust code
panics there). -/
def lastGenId (s : String) : Option String :=
  ((rustLines s).getLast?).bind
    (fun line => (firstWhitespaceToken line).map (fun t => String.mk t))

/-! ## Outcomes of external commands -/

/-- Result of spawning an external command, as observed by the Rust code:
either the spawn itself failed with an I/O error (modelled by an opaque
numeric payload), or the child terminated with `code() : Option<i32>`
(`none` = killed by a signal). -/
inductive SpawnRes where
  | ioErr (e : Nat)
  | exited (code : Option Int)
deriving DecidableEq, Repr

/-- Final outcome of an operation: Rust `Ok`, Rust `Err`, or a Rust panic. -/
inductive Outcome (ε α : Type) where
  | ok (a : α)
  | err (e : ε)
  | panic
deriving DecidableEq, Repr

/-! ## `deactivate` (the Rollback Executor) from src/bin/activate.rs -/

/-- Embedding of `DeactivateError` from src/bin/activate.rs, stage-tagged; I/O and UTF-8
error payloads are opaque numbers. -/
inductive DeactivateError where
  | Rollback (e : Nat)
  | RollbackExit (code : Option Int)
  | ListGen (e : Nat)
  | ListGenExit (code : Option Int)
  | DecodeListGenUtf8 (e : Nat)
  | DeleteGen (e : Nat)
  | DeleteGenExit (code : Option Int)
  | Reactivate (e : Nat)
  | ReactivateExit (code : Option Int)
deriving DecidableEq, Repr

/-- One external command issued by `deactivate`, in the trace. -/
inductive DStep where
  | rollback
  | listGen
  | deleteGen (id : String)
  | reactivate
deriving DecidableEq, Repr

/-- The command kind of a `DStep`, forgetting the payload. -/
inductive DStepKind where
  | rollback
  | listGen
  | deleteGen
  | reactivate
deriving DecidableEq, Repr

/-- Kind of a rollback-executor step. -/
def DStep.kind : DStep → DStepKind
  | .rollback => .rollback
  | .listGen => .listGen
  | .deleteGen _ => .deleteGen
  | .reactivate => .reactivate

deriving instance DecidableEq for Except

/-- Environment for one `deactivate` run: the outcome the outside world
gives to each external command it may issue.  `listGenStdout` is the
UTF-8 decoding of the captured stdout of the list-generations command
(`Except.error` = `FromUtf8Error`). -/
structure DeactEnv where
  rollbackRes : SpawnRes
  listGenRes : SpawnRes
  listGenStdout : Except Nat String
  deleteGenRes : SpawnRes
  reactivateRes : SpawnRes
deriving DecidableEq, Repr

/-- Embedding of `deactivate` from src/bin/activate.rs: the five-stage rollback sequence
(`nix-env --rollback`, `nix-env --list-generations`, decode + extract the
last generation id, `nix-env --delete-generations <id>`, re-run
`<profile>/deploy-rs-activate`).  Returns the outcome and the trace of
commands issued, in order.  `Outcome.panic` models the two `.expect(...)`
panics on a missing generation line / missing id token. -/
def deactivate (env : DeactEnv) : Outcome DeactivateError Unit × List DStep :=
  match env.rollbackRes with
  | .ioErr e => (.err (.Rollback e), [.rollback])
  | .exited (some 0) =>
    match env.listGenRes with
    | .ioErr e => (.err (.ListGen e), [.rollback, .listGen])
    | .exited (some 0) =>
      match env.listGenStdout with
      | .error e => (.err (.DecodeListGenUtf8 e), [.rollback, .listGen])
      | .ok s =>
        match (rustLines s).getLast? with
        | none => (.panic, [.rollback, .listGen])
        | some line =>
          match firstWhitespaceToken line with
          | none => (.panic, [.rollback, .listGen])
          | some t =>
            let id := String.mk t
            match env.deleteGenRes with
            | .ioErr e => (.err (.DeleteGen e), [.rollback, .listGen, .deleteGen id])
            | .exited (some 0) =>
              match env.reactivateRes with
              | .ioErr e =>
                (.err (.Reactivate e),
                 [.rollback, .listGen, .deleteGen id, .reactivate])
              | .exited (some 0) =>
                (.ok (), [.rollback, .listGen, .deleteGen id, .reactivate])
              | .exited a =>
                (.err (.ReactivateExit a),
                 [.rollback, .listGen, .deleteGen id, .reactivate])
            | .exited a => (.err (.DeleteGenExit a), [.rollback, .listGen, .deleteGen id])
    | .exited a => (.err (.ListGenExit a), [.rollback, .listGen])
  | .exited a => (.err (.RollbackExit a), [.rollback])

/-! ## Confirmation watcher (`danger_zone`, `activation_confirmation`) and `wait` -/

/-- Embedding of `DangerZoneError` from src/bin/activate.rs. -/
inductive DangerZoneError where
  | TimesUp
  | NoConfirmation
  | Watch (e : Nat)
deriving DecidableEq, Repr

/-- What `timeout(confirm_timeout, events.recv()).await` yields in
`danger_zone`: a worthy event, a watch error forwarded on the channel, a
closed channel, or an elapsed timeout. -/
inductive ChannelOutcome where
  | recvEvent
  | recvErr (e : Nat)
  | closed
  | timedOut
deriving DecidableEq, Repr

/-- Embedding of `danger_zone` from src/bin/activate.rs: maps the channel/timeout race
outcome to the confirmation result. -/
def danger_zone (c : ChannelOutcome) : Except DangerZoneError Unit :=
  match c with
  | .recvEvent => .ok ()
  | .recvErr e => .error (.Watch e)
  | .closed => .error (.NoConfirmation)
  | .timedOut => .error (.TimesUp)

/-- Embedding of `ActivationConfirmationError` from src/bin/activate.rs. -/
inductive ActivationConfirmationError where
  | CreateConfirmDir (e : Nat)
  | CreateConfirmFile (e : Nat)
  | Watcher (e : Nat)
  | WaitingError (e : DangerZoneError)
deriving DecidableEq, Repr

/-- Environment for one `activation_confirmation` run. -/
structure ConfirmEnv where
  createDirRes : Except Nat Unit
  createFileRes : Except Nat Unit
  watcherCreateRes : Except Nat Unit
  watchRes : Except Nat Unit
  channel : ChannelOutcome
deriving DecidableEq, Repr

/-- One observable step of `activation_confirmation`, in the trace. -/
inductive CStep where
  | createDir
  | createCanary
  | createWatcher
  | watch
  | waitChannel
deriving DecidableEq, Repr

/-- Embedding of `activation_confirmation` from src/bin/activate.rs: derive the canary
path (panics inside `make_lock_path` propagate), ensure the parent
directory, create the canary file, create the watcher, watch the canary
path, then block in `danger_zone`. -/
def activation_confirmation (env : ConfirmEnv) (temp_path closure : String) :
    Outcome ActivationConfirmationError Unit × List CStep :=
  match make_lock_path temp_path closure with
  | none => (.panic, [])
  | some _ =>
    match env.createDirRes with
    | .error e => (.err (.CreateConfirmDir e), [.createDir])
    | .ok _ =>
      match env.createFileRes with
      | .error e => (.err (.CreateConfirmFile e), [.createDir, .createCanary])
      | .ok _ =>
        match env.watcherCreateRes with
        | .error e => (.err (.Watcher e), [.createDir, .createCanary, .createWatcher])
        | .ok _ =>
          match env.watchRes with
          | .error e =>
            (.err (.Watcher e), [.createDir, .createCanary, .createWatcher, .watch])
          | .ok _ =>
            match danger_zone env.channel with
            | .error e =>
              (.err (.WaitingError e),
               [.createDir, .createCanary, .createWatcher, .watch, .waitChannel])
            | .ok _ =>
              (.ok (), [.createDir, .createCanary, .createWatcher, .watch, .waitChannel])

/-- Embedding of `WaitError` from src/bin/activate.rs. -/
inductive WaitError where
  | Watcher (e : Nat)
  | Waiting (e : DangerZoneError)
deriving DecidableEq, Repr

/-- Environment for one `wait` run.  `lockExists` is what the existence
check (`fs::metadata`) of the canary file observes right after the watch is
established. -/
structure WaitEnv where
  watcherCreateRes : Except Nat Unit
  watchRes : Except Nat Unit
  lockExists : Bool
  unwatchRes : Except Nat Unit
  channel : ChannelOutcome
deriving DecidableEq, Repr

/-- One observable step of `wait`, in the trace. -/
inductive WStep where
  | createWatcher
  | watch
  | checkExists
  | unwatch
  | waitChannel
deriving DecidableEq, Repr

/-- Embedding of `wait` from src/bin/activate.rs: derive the canary path, create the
watcher, watch the temp directory, then re-check the canary's existence to
close the create-before-watch race: if present, unwatch and return; else
block in `danger_zone` with the given timeout (default 240s). -/
def wait (env : WaitEnv) (temp_path closure : String) :
    Outcome WaitError Unit × List WStep :=
  match make_lock_path temp_path closure with
  | none => (.panic, [])
  | some _ =>
    match env.watcherCreateRes with
    | .error e => (.err (.Watcher e), [.createWatcher])
    | .ok _ =>
      match env.watchRes with
      | .error e => (.err (.Watcher e), [.createWatcher, .watch])
      | .ok _ =>
        if env.lockExists then
          match env.unwatchRes with
          | .error e =>
            (.err (.Watcher e), [.createWatcher, .watch, .checkExists, .unwatch])
          | .ok _ => (.ok (), [.createWatcher, .watch, .checkExists, .unwatch])
        else
          match danger_zone env.channel with
          | .error e =>
            (.err (.Waiting e), [.createWatcher, .watch, .checkExists, .waitChannel])
          | .ok _ => (.ok (), [.createWatcher, .watch, .checkExists, .waitChannel])

/-! ## `activate` (the Activation Controller) from src/bin/activate.rs -/

/-- Embedding of `ActivateError` from src/bin/activate.rs. -/
inductive ActivateError where
  | SetProfile (e : Nat)
  | SetProfileExit (code : Option Int)
  | RunActivate (e : Nat)
  | RunActivateExit (code : Option Int)
  | Deactivate (e : DeactivateError)
  | ActivationConfirmation (e : ActivationConfirmationError)
deriving DecidableEq, Repr

/-- One observable step of `activate`, in the trace: its own two external
commands, plus the steps of the confirmation watcher and of any `deactivate`
call, inlined in order. -/
inductive AStep where
  | setProfile
  | runActivate (location : String)
  | confirmStep (c : CStep)
  | deactStep (d : DStep)
deriving DecidableEq, Repr

/-- Environment for one `activate` run. -/
structure ActEnv where
  setProfileRes : SpawnRes
  runActivateRes : SpawnRes
  confirm : ConfirmEnv
  deact : DeactEnv
deriving DecidableEq, Repr

/-- Embedding of the `deactivate(&profile_path).await?; return Err(orig)` idiom of
`activate`: run the rollback executor; if it succeeds the original error is
returned, if it fails its own stage-tagged error replaces the original
(`From<DeactivateError>`), and its panics propagate. -/
def rollbackThen (denv : DeactEnv) (orig : ActivateError) (tr : List AStep) :
    Outcome ActivateError Unit × List AStep :=
  match deactivate denv with
  | (.ok _, dtr) => (.err orig, tr ++ dtr.map AStep.deactStep)
  | (.err de, dtr) => (.err (.Deactivate de), tr ++ dtr.map AStep.deactStep)
  | (.panic, dtr) => (.panic, tr ++ dtr.map AStep.deactStep)

/-- The part of `activate` after the exit status of the activation hook is
available (src/bin/activate.rs lines 428-452): when not dry-run, check the
hook's exit code (auto-rollback on failure), then, when magic-rollback is
set and this is not a boot-only update, open the confirmation window and
roll back unconditionally on any confirmation error. -/
def afterRun (env : ActEnv) (cl temp : String)
    (auto_rollback magic_rollback dry_activate boot : Bool)
    (code : Option Int) (tr : List AStep) :
    Outcome ActivateError Unit × List AStep :=
  if dry_activate then (.ok (), tr)
  else
    match code with
    | some 0 =>
      if magic_rollback && !boot then
        match activation_confirmation env.confirm temp cl with
        | (.ok _, ctr) => (.ok (), tr ++ ctr.map AStep.confirmStep)
        | (.err ce, ctr) =>
          rollbackThen env.deact (.ActivationConfirmation ce)
            (tr ++ ctr.map AStep.confirmStep)
        | (.panic, ctr) => (.panic, tr ++ ctr.map AStep.confirmStep)
      else (.ok (), tr)
    | a =>
      if auto_rollback then rollbackThen env.deact (.RunActivateExit a) tr
      else (.err (.RunActivateExit a), tr)

/-- The part of `activate` from the activation-hook invocation on
(src/bin/activate.rs lines 402-426): run
`<activation_location>/deploy-rs-activate` where the location is the closure
for dry-run and the profile path otherwise; a spawn failure triggers
auto-rollback (when enabled and not dry-run) and is surfaced. -/
def afterSet (env : ActEnv) (pp cl temp : String)
    (auto_rollback magic_rollback dry_activate boot : Bool) (tr : List AStep) :
    Outcome ActivateError Unit × List AStep :=
  let loc := if dry_activate then cl else pp
  match env.runActivateRes with
  | .ioErr e =>
    if auto_rollback && !dry_activate then
      rollbackThen env.deact (.RunActivate e) (tr ++ [.runActivate loc])
    else (.err (.RunActivate e), tr ++ [.runActivate loc])
  | .exited code =>
    afterRun env cl temp auto_rollback magic_rollback dry_activate boot code
      (tr ++ [.runActivate loc])

/-- Embedding of `activate` from src/bin/activate.rs: unless dry-run, set the profile
with `nix-env -p <profile> --set <closure>` (auto-rollback on a bad exit
code when enabled), then continue with the activation hook and the
confirmation window. -/
def activate (env : ActEnv) (pp cl temp : String)
    (auto_rollback magic_rollback dry_activate boot : Bool) :
    Outcome ActivateError Unit × List AStep :=
  if dry_activate then
    afterSet env pp cl temp auto_rollback magic_rollback dry_activate boot []
  else
    match env.setProfileRes with
    | .ioErr e => (.err (.SetProfile e), [.setProfile])
    | .exited (some 0) =>
      afterSet env pp cl temp auto_rollback magic_rollback dry_activate boot
        [.setProfile]
    | .exited a =>
      if auto_rollback && !dry_activate then
        rollbackThen env.deact (.SetProfileExit a) [.setProfile]
      else (.err (.SetProfileExit a), [.setProfile])

/-! ## `get_profile_path` (Profile Path Resolver) from src/bin/activate.rs -/

/-- Embedding of `GetProfilePathError` from src/bin/activate.rs. -/
inductive GetProfilePathError where
  | NoUserHome (user : String)
deriving DecidableEq, Repr

/-- Environment for profile-path resolution: the two environment variables
(`NIX_STATE_DIR`, `XDG_STATE_HOME`), the resolvable home directory, and
on-disk existence of the legacy per-user profiles directory. -/
structure ProfileEnv where
  nixStateDir : Option String
  xdgStateHome : Option String
  homeDir : Option String
  legacyDirExists : String → Bool

/-- Embedding of `get_profile_path` from src/bin/activate.rs: explicit path wins; for
root, `system` maps into `<state_dir>/profiles/system` and any other name
into `<state_dir>/profiles/per-user/root/<name>`; for other users the legacy
per-user directory is used when it exists, else the modern state directory
(`XDG_STATE_HOME` or `<home>/.local/state`); the `_ => panic!("impossible")`
arm covers every other argument combination. -/
def get_profile_path (env : ProfileEnv)
    (profile_path profile_user profile_name : Option String) :
    Outcome GetProfilePathError String :=
  match profile_path, profile_user, profile_name with
  | some p, none, none => .ok p
  | none, some user, some name =>
    let nix_state_dir := env.nixStateDir.getD "/nix/var/nix"
    if user = "root" then
      if name = "system" then .ok (nix_state_dir ++ "/profiles/system")
      else .ok (nix_state_dir ++ "/profiles/per-user/root/" ++ name)
    else
      let old_user_profiles_dir := nix_state_dir ++ "/profiles/per-user/" ++ user
      if env.legacyDirExists old_user_profiles_dir then
        .ok (old_user_profiles_dir ++ "/" ++ name)
      else
        match env.xdgStateHome with
        | some state_dir => .ok (state_dir ++ "/nix/profiles/" ++ name)
        | none =>
          match env.homeDir with
          | some h => .ok (h ++ "/.local/state" ++ "/nix/profiles/" ++ name)
          | none => .err (.NoUserHome user)
  | _, _, _ => .panic

/-! ## Concrete environments used by witnesses and counterexamples -/

/-- Rollback-executor environment: all five stages succeed; the
list-generations output has two generation lines. -/
def dEnvAllOk : DeactEnv :=
  ⟨.exited (some 0), .exited (some 0), .ok " 41   2020-01-01\n 42   2020-01-02\n",
   .exited (some 0), .exited (some 0)⟩

/-- Rollback-executor environment: the list-generations command exits 1. -/
def dEnvListGenFails : DeactEnv :=
  ⟨.exited (some 0), .exited (some 1), .ok "", .exited (some 0), .exited (some 0)⟩

/-- Rollback-executor environment: everything succeeds but the
list-generations output is empty (no generation lines). -/
def dEnvNoLines : DeactEnv :=
  ⟨.exited (some 0), .exited (some 0), .ok "", .exited (some 0), .exited (some 0)⟩

/-- Rollback-executor environment: spawning the rollback command fails. -/
def dEnvRollbackSpawnFails : DeactEnv :=
  ⟨.ioErr 7, .exited (some 0), .ok " 42   2020-01-02\n", .exited (some 0),
   .exited (some 0)⟩

/-- Confirmation environment in which the watcher is set up fine but the
confirmation timeout elapses. -/
def cEnvTimesUp : ConfirmEnv := ⟨.ok (), .ok (), .ok (), .ok (), .timedOut⟩

/-- Activate environment: profile set and activation hook succeed, the
confirmation window times out, and the rollback executor succeeds. -/
def aEnvConfirmTimeout : ActEnv :=
  ⟨.exited (some 0), .exited (some 0), cEnvTimesUp, dEnvAllOk⟩

/-- Activate environment: profile set succeeds, the activation hook exits 1,
and the rollback executor succeeds. -/
def aEnvHookExit1 : ActEnv :=
  ⟨.exited (some 0), .exited (some 1), cEnvTimesUp, dEnvAllOk⟩

/-- Activate environment: profile set succeeds, the activation hook exits 1,
and spawning the rollback executor's rollback command fails. -/
def aEnvHookFailRollbackFails : ActEnv :=
  ⟨.exited (some 0), .exited (some 1), cEnvTimesUp, dEnvRollbackSpawnFails⟩

/-- Activate environment: profile set succeeds but spawning the activation
hook fails with an I/O error. -/
def aEnvHookSpawnFails : ActEnv :=
  ⟨.exited (some 0), .ioErr 3, cEnvTimesUp, dEnvAllOk⟩

/-- Wait environment: watcher set up fine, the canary already exists at the
post-watch existence check, unwatching succeeds; the channel would time
out if it were ever consulted. -/
def wEnvExists : WaitEnv := ⟨.ok (), .ok (), true, .ok (), .timedOut⟩

/-- Wait environment: as `wEnvExists` but cancelling the watch fails. -/
def wEnvUnwatchFails : WaitEnv := ⟨.ok (), .ok (), true, .error 5, .timedOut⟩

/-- Profile environment: no `NIX_STATE_DIR`, no `XDG_STATE_HOME`, a home
directory, and no legacy per-user directory on disk. -/
def pEnvHomeOnly : ProfileEnv := ⟨none, none, some "/home/alice", fun _ => false⟩

/-- Profile environment: nothing available — no state-dir variable, no
XDG variable, no home directory, no legacy directory. -/
def pEnvNothing : ProfileEnv := ⟨none, none, none, fun _ => false⟩

/-! ## Helper lemmas about `deactivate` -/

/-- Whatever the environment, the first command `deactivate` issues is the
rollback command: its trace always starts with `DStep.rollback`. -/
theorem deactivate_trace_head (env : DeactEnv) :
    ∃ l, (deactivate env).2 = DStep.rollback :: l := by
  unfold deactivate
  repeat' split
  all_goals exact ⟨_, rfl⟩

/-- When `deactivate` succeeds, its trace is exactly the full command
sequence: rollback, list generations, delete a generation, re-activate. -/
theorem deactivate_ok_trace (env : DeactEnv) (h : (deactivate env).1 = .ok ()) :
    ∃ id, (deactivate env).2 =
      [DStep.rollback, DStep.listGen, DStep.deleteGen id, DStep.reactivate] := by
  unfold deactivate at h ⊢
  repeat' split at h
  all_goals first
    | exact ⟨_, rfl⟩
    | simp_all

/-- Claim C5: the Rollback Executor runs its steps in a fixed linear order —
its trace of issued commands is always a prefix of
rollback, list-generations, delete-generation, re-activate — each command is
issued only after every earlier command exited with code exactly 0, so the
first failing step aborts the sequence with no later step attempted and no
retries (in particular a failing list-generations prevents any
delete-generation invocation), and the full sequence runs exactly when the
executor succeeds. -/
theorem claim5_deactivate_linear_no_retry (env : DeactEnv) :
    (∃ rest, ((deactivate env).2.map DStep.kind) ++ rest =
      [DStepKind.rollback, DStepKind.listGen, DStepKind.deleteGen,
       DStepKind.reactivate])
    ∧ (DStepKind.listGen ∈ (deactivate env).2.map DStep.kind →
        env.rollbackRes = SpawnRes.exited (some 0))
    ∧ (DStepKind.deleteGen ∈ (deactivate env).2.map DStep.kind →
        env.rollbackRes = SpawnRes.exited (some 0) ∧
          env.listGenRes = SpawnRes.exited (some 0))
    ∧ (DStepKind.reactivate ∈ (deactivate env).2.map DStep.kind →
        env.rollbackRes = SpawnRes.exited (some 0) ∧
          env.listGenRes = SpawnRes.exited (some 0) ∧
          env.deleteGenRes = SpawnRes.exited (some 0))
    ∧ ((deactivate env).1 = Outcome.ok () →
        (deactivate env).2.map DStep.kind =
          [DStepKind.rollback, DStepKind.listGen, DStepKind.deleteGen,
           DStepKind.reactivate]) := by
  refine ⟨?_, ?_, ?_, ?_, ?_⟩ <;>
    · unfold deactivate
      repeat' split
      all_goals first
        | exact ⟨_, rfl⟩
        | simp_all [DStep.kind]

/-- Witness for claim C5 at a concrete environment where list-generations
exits 1: no delete-generation command is issued, and the trace is a strict
prefix of the full sequence. -/
theorem claim5_witness :
    DStepKind.deleteGen ∉ (deactivate dEnvListGenFails).2.map DStep.kind ∧
      (deactivate dEnvListGenFails).2.map DStep.kind =
        [DStepKind.rollback, DStepKind.listGen] :=
  ⟨fun h => by
      have := (claim5_deactivate_linear_no_retry dEnvListGenFails).2.2.1 h
      simp [dEnvListGenFails] at this,
   by decide⟩

/-- Claim C6 (amended): when the list-generations command has been run and
its output decoded, the generation identifier passed to delete-generations
is exactly the first whitespace-delimited token of the last line of that
output; and when the output has no line (or its last line has no token) the
run ends in a panic (process abort) with no delete-generation attempted —
not in a stage-tagged error returned to the caller. -/
theorem claim6_generation_id_extraction (env : DeactEnv) (s : String)
    (hs : env.listGenStdout = Except.ok s) :
    (∀ id, DStep.deleteGen id ∈ (deactivate env).2 → lastGenId s = some id)
    ∧ (env.rollbackRes = SpawnRes.exited (some 0) →
       env.listGenRes = SpawnRes.exited (some 0) →
       lastGenId s = none →
       deactivate env = (Outcome.panic, [DStep.rollback, DStep.listGen])) := by
  constructor
  · intro id hid
    unfold deactivate at hid
    repeat' split at hid
    all_goals simp_all [lastGenId]
  · intro h1 h2 h3
    unfold deactivate
    rw [h1, h2, hs]
    rcases hg : (rustLines s).getLast? with _ | line
    · simp [hg]
    · rcases ht : firstWhitespaceToken line with _ | t
      · simp [hg, ht]
      · simp [lastGenId, hg, ht] at h3

/-- Witness for claim C6: in a run with two generation lines the deleted
generation id is "42", the first token of the last line; and with an empty
output the run is a panic after exactly rollback and list-generations. -/
theorem claim6_witness :
    lastGenId " 41   2020-01-01\n 42   2020-01-02\n" = some "42" ∧
      deactivate dEnvNoLines = (Outcome.panic, [DStep.rollback, DStep.listGen]) :=
  ⟨(claim6_generation_id_extraction dEnvAllOk _ rfl).1 "42" (by decide),
   (claim6_generation_id_extraction dEnvNoLines "" rfl).2 rfl rfl rfl⟩

/-- Counterexample to claim C6 as stated: the list-generations output of
`dEnvNoLines` contains no lines, and the operation does not report a
stage-tagged error to the caller — it panics (the Rust `.expect` aborts the
process), as the `Outcome.panic` (not `Outcome.err`) outcome shows. -/
theorem claim6_counterexample :
    deactivate dEnvNoLines = (Outcome.panic, [DStep.rollback, DStep.listGen]) := by
  decide

/-! ## Helper lemmas about `rollbackThen` (the `deactivate(..).await?` idiom) -/

/-- Whenever `activate` reaches a `deactivate(&profile_path).await?` call,
the rollback command is issued: the rollback executor's first step is in the
trace. -/
theorem rollbackThen_invoked (denv : DeactEnv) (orig : ActivateError)
    (tr : List AStep) :
    AStep.deactStep DStep.rollback ∈ (rollbackThen denv orig tr).2 := by
  obtain ⟨l, hl⟩ := deactivate_trace_head denv
  rcases hde : deactivate denv with ⟨r, dtr⟩
  rw [hde] at hl
  simp only at hl
  rcases r <;> simp [rollbackThen, hde, hl]

/-- When the rollback executor succeeds, `deactivate(..).await?; return
Err(orig)` returns the original error, after the executor's full trace. -/
theorem rollbackThen_ok (denv : DeactEnv) (orig : ActivateError)
    (tr : List AStep) (hd : (deactivate denv).1 = Outcome.ok ()) :
    rollbackThen denv orig tr =
      (Outcome.err orig, tr ++ (deactivate denv).2.map AStep.deactStep) := by
  rcases hde : deactivate denv with ⟨r, dtr⟩
  rw [hde] at hd
  simp only at hd
  subst hd
  simp [rollbackThen, hde]

/-! ## Claims C1-C4 about `activate` -/

/-- Claim C1: with magic-rollback enabled, boot not set (and the run live,
i.e. not dry), if the profile was set and the activation hook exited 0 but
the confirmation watcher returns any failure (timeout, channel closed, or
watch error — the `WaitingError` outcomes), then the Rollback Executor is
invoked: its rollback command appears in the trace.  The auto-rollback flag
is universally quantified, so this holds in particular when it is not
set. -/
theorem claim1_confirm_failure_triggers_rollback (env : ActEnv)
    (pp cl temp : String) (auto : Bool) (dz : DangerZoneError)
    (hsp : env.setProfileRes = SpawnRes.exited (some 0))
    (hra : env.runActivateRes = SpawnRes.exited (some 0))
    (hc : (activation_confirmation env.confirm temp cl).1 =
      Outcome.err (ActivationConfirmationError.WaitingError dz)) :
    AStep.deactStep DStep.rollback ∈
      (activate env pp cl temp auto true false false).2 := by
  rcases hac : activation_confirmation env.confirm temp cl with ⟨r, ctr⟩
  rw [hac] at hc
  simp only at hc
  subst hc
  simp [activate, afterSet, afterRun, hsp, hra, hac, rollbackThen_invoked]

/-- Witness for claim C1: a concrete run with auto-rollback NOT set, where
the confirmation window times out, still issues the rollback command. -/
theorem claim1_witness :
    AStep.deactStep DStep.rollback ∈
      (activate aEnvConfirmTimeout "/profile" "/nix/store/abc-x" "/tmp"
        false true false false).2 :=
  claim1_confirm_failure_triggers_rollback aEnvConfirmTimeout "/profile"
    "/nix/store/abc-x" "/tmp" false DangerZoneError.TimesUp rfl rfl (by decide)

/-- Claim C2 (amended): when the activation hook exits with a nonzero or
absent status, auto-rollback is set and dry-run is not, the Rollback
Executor is invoked; provided the executor itself succeeds, its full
sequence (rollback, list generations, delete last generation, re-activate)
runs and the original `RunActivateExit` error is the one returned.  (When a
rollback step fails, the stage-tagged `Deactivate` error replaces the
original — see the counterexample to the unconditional form.) -/
theorem claim2_hook_failure_full_rollback (env : ActEnv) (pp cl temp : String)
    (magic boot : Bool) (a : Option Int)
    (hsp : env.setProfileRes = SpawnRes.exited (some 0))
    (hra : env.runActivateRes = SpawnRes.exited a)
    (ha : a ≠ some 0)
    (hd : (deactivate env.deact).1 = Outcome.ok ()) :
    activate env pp cl temp true magic false boot =
      (Outcome.err (ActivateError.RunActivateExit a),
       [AStep.setProfile, AStep.runActivate pp] ++
         (deactivate env.deact).2.map AStep.deactStep)
    ∧ ∃ id, (deactivate env.deact).2 =
        [DStep.rollback, DStep.listGen, DStep.deleteGen id, DStep.reactivate] := by
  refine ⟨?_, deactivate_ok_trace env.deact hd⟩
  have step : activate env pp cl temp true magic false boot
      = rollbackThen env.deact (ActivateError.RunActivateExit a)
          [AStep.setProfile, AStep.runActivate pp] := by
    simp only [activate, afterSet, afterRun, hsp, hra]
    rcases a with _ | n
    · simp
    · have hn : n ≠ 0 := fun h => ha (by rw [h])
      simp [hn]
  rw [step, rollbackThen_ok env.deact _ _ hd]

/-- Witness for claim C2: concrete run (hook exits 1, auto-rollback set, not
dry-run, rollback executor succeeds): the full rollback sequence appears in
the trace and the original hook error is returned. -/
theorem claim2_witness :
    activate aEnvHookExit1 "/profile" "/nix/store/abc-x" "/tmp"
        true false false false =
      (Outcome.err (ActivateError.RunActivateExit (some 1)),
       [AStep.setProfile, AStep.runActivate "/profile"] ++
         (deactivate aEnvHookExit1.deact).2.map AStep.deactStep) :=
  (claim2_hook_failure_full_rollback aEnvHookExit1 "/profile" "/nix/store/abc-x"
    "/tmp" false false (some 1) rfl rfl (by decide) (by decide)).1

/-- Counterexample to claim C2 as stated: the activation hook exits 1 with
auto-rollback set and dry-run unset, but the rollback executor's own first
step fails to spawn — the full 5-step sequence is NOT invoked (the trace
stops after the rollback command) and the error returned to the caller is
the stage-tagged `Deactivate` error, not `RunActivateExit`. -/
theorem claim2_counterexample :
    activate aEnvHookFailRollbackFails "/profile" "/nix/store/abc-x" "/tmp"
        true false false false =
      (Outcome.err (ActivateError.Deactivate (DeactivateError.Rollback 7)),
       [AStep.setProfile, AStep.runActivate "/profile",
        AStep.deactStep DStep.rollback]) := by
  decide

/-- Dry-run characterization of `activate`: with `dry_activate` set the only
command ever issued is the activation hook, run against the closure path,
and the result is success for any exit status and the `RunActivate` error
exactly on a spawn failure. -/
theorem activate_dry (env : ActEnv) (pp cl temp : String)
    (auto magic boot : Bool) :
    activate env pp cl temp auto magic true boot =
      ((match env.runActivateRes with
        | .ioErr e => Outcome.err (ActivateError.RunActivate e)
        | .exited _ => Outcome.ok ()), [AStep.runActivate cl]) := by
  rcases h : env.runActivateRes with e | c <;>
    simp [activate, afterSet, afterRun, h]

/-- Claim C3: with dry-activate set, the profile-set command is never
invoked and the confirmation window is never opened (no canary-file
creation, no watch, no channel wait), whatever the magic-rollback,
auto-rollback and boot flags and whatever the outside world does. -/
theorem claim3_dry_run_skips_profile_set_and_confirm (env : ActEnv)
    (pp cl temp : String) (auto magic boot : Bool) :
    AStep.setProfile ∉ (activate env pp cl temp auto magic true boot).2
    ∧ ∀ c, AStep.confirmStep c ∉ (activate env pp cl temp auto magic true boot).2 := by
  rw [activate_dry]
  constructor
  · simp
  · intro c
    simp

/-- Claim C4 (amended): with dry-activate set, `activate` runs the
activation hook against the closure path and returns success for every exit
status of the hook (including nonzero and signal-killed); only a failure to
spawn the hook is returned (as the `RunActivate` error).  In either case the
trace is exactly the one hook invocation: no profile mutation, no
confirmation window, no rollback. -/
theorem claim4_dry_run_result (env : ActEnv) (pp cl temp : String)
    (auto magic boot : Bool) :
    (∀ c, env.runActivateRes = SpawnRes.exited c →
      activate env pp cl temp auto magic true boot =
        (Outcome.ok (), [AStep.runActivate cl]))
    ∧ (∀ e, env.runActivateRes = SpawnRes.ioErr e →
      activate env pp cl temp auto magic true boot =
        (Outcome.err (ActivateError.RunActivate e), [AStep.runActivate cl])) := by
  constructor
  · intro c hc
    rw [activate_dry, hc]
  · intro e he
    rw [activate_dry, he]

/-- Witness for claim C3 at a concrete environment with every other flag
set: a dry run issues no profile-set command and no confirmation step. -/
theorem claim3_witness :
    AStep.setProfile ∉
      (activate aEnvHookExit1 "/profile" "/nix/store/abc-x" "/tmp"
        true true true true).2
    ∧ AStep.confirmStep CStep.createCanary ∉
      (activate aEnvHookExit1 "/profile" "/nix/store/abc-x" "/tmp"
        true true true true).2 :=
  ⟨(claim3_dry_run_skips_profile_set_and_confirm aEnvHookExit1 "/profile"
      "/nix/store/abc-x" "/tmp" true true true).1,
   (claim3_dry_run_skips_profile_set_and_confirm aEnvHookExit1 "/profile"
      "/nix/store/abc-x" "/tmp" true true true).2 CStep.createCanary⟩

/-- Witness for claim C4 at concrete environments: a dry run whose
hook exits 1 still succeeds with only the hook in the trace, and a dry run
whose hook fails to spawn returns the spawn error. -/
theorem claim4_witness :
    activate aEnvHookExit1 "/profile" "/nix/store/abc-x" "/tmp"
        true true true false =
      (Outcome.ok (), [AStep.runActivate "/nix/store/abc-x"])
    ∧ activate aEnvHookSpawnFails "/profile" "/nix/store/abc-x" "/tmp"
        true true true false =
      (Outcome.err (ActivateError.RunActivate 3),
       [AStep.runActivate "/nix/store/abc-x"]) :=
  ⟨(claim4_dry_run_result aEnvHookExit1 "/profile" "/nix/store/abc-x" "/tmp"
      true true false).1 (some 1) rfl,
   (claim4_dry_run_result aEnvHookSpawnFails "/profile" "/nix/store/abc-x" "/tmp"
      true true false).2 3 rfl⟩

/-- Counterexample to claim C4 as stated: a dry-activate run in which the
activation hook fails to SPAWN does not return success — the `RunActivate`
error is surfaced (only nonzero/absent exit statuses are ignored under
dry-run, because the exit-code check is inside the non-dry branch). -/
theorem claim4_counterexample :
    (activate aEnvHookSpawnFails "/profile" "/nix/store/abc-x" "/tmp"
        false false true false).1 =
      Outcome.err (ActivateError.RunActivate 3) := by
  decide

/-! ## Claim C9 about `wait` -/

/-- Claim C9 (amended): when the canary marker already exists at the
existence check performed right after the watch is established, `wait`
cancels the watch and — provided the cancel succeeds — returns success; in
every such run (cancel succeeding or not) it never blocks on the event
channel or timeout. -/
theorem claim9_wait_existing_canary (env : WaitEnv) (temp cl : String)
    (hmk : ∃ p, make_lock_path temp cl = some p)
    (hw1 : env.watcherCreateRes = Except.ok ())
    (hw2 : env.watchRes = Except.ok ())
    (hex : env.lockExists = true) :
    (env.unwatchRes = Except.ok () →
      wait env temp cl =
        (Outcome.ok (),
         [WStep.createWatcher, WStep.watch, WStep.checkExists, WStep.unwatch]))
    ∧ WStep.waitChannel ∉ (wait env temp cl).2 := by
  obtain ⟨p, hp⟩ := hmk
  constructor
  · intro hu
    simp [wait, hp, hw1, hw2, hex, hu]
  · rcases hu : env.unwatchRes with e | u <;>
      simp [wait, hp, hw1, hw2, hex, hu]

/-- Witness for claim C9: concrete run where the canary exists at the check:
`wait` succeeds with trace createWatcher, watch, checkExists, unwatch and
never touches the channel (whose outcome would be a timeout). -/
theorem claim9_witness :
    wait wEnvExists "/tmp" "/nix/store/abc-x" =
      (Outcome.ok (),
       [WStep.createWatcher, WStep.watch, WStep.checkExists, WStep.unwatch])
    ∧ WStep.waitChannel ∉ (wait wEnvExists "/tmp" "/nix/store/abc-x").2 :=
  ⟨(claim9_wait_existing_canary wEnvExists "/tmp" "/nix/store/abc-x"
      ⟨"/tmp/deploy-rs-canary-abc", by decide⟩ rfl rfl rfl).1 rfl,
   (claim9_wait_existing_canary wEnvExists "/tmp" "/nix/store/abc-x"
      ⟨"/tmp/deploy-rs-canary-abc", by decide⟩ rfl rfl rfl).2⟩

/-- Counterexample to claim C9 as stated: the canary exists at the check,
but cancelling the watch fails, so `wait` returns the watcher error rather
than success (it still does not block on the channel or timeout). -/
theorem claim9_counterexample :
    wait wEnvUnwatchFails "/tmp" "/nix/store/abc-x" =
      (Outcome.err (WaitError.Watcher 5),
       [WStep.createWatcher, WStep.watch, WStep.checkExists, WStep.unwatch]) := by
  decide

/-! ## Claim C8 about `get_profile_path` -/

/-- Claim C8: profile resolution maps (root, system) to
`<state_dir>/profiles/system`; (root, N) for any other N to
`<state_dir>/profiles/per-user/root/N`; a non-root user with no legacy
per-user directory resolves under the modern state path — `XDG_STATE_HOME`
when set, else `<home>/.local/state` — as `<state>/nix/profiles/N`; and the
no-home-directory error occurs exactly in that fallback branch when neither
the XDG variable nor a home directory is available (and never anywhere
else). -/
theorem claim8_profile_path_resolution (env : ProfileEnv) (u n : String) :
    (get_profile_path env none (some "root") (some "system") =
      Outcome.ok ((env.nixStateDir.getD "/nix/var/nix") ++ "/profiles/system"))
    ∧ (n ≠ "system" →
        get_profile_path env none (some "root") (some n) =
          Outcome.ok ((env.nixStateDir.getD "/nix/var/nix") ++
            "/profiles/per-user/root/" ++ n))
    ∧ (u ≠ "root" →
       env.legacyDirExists ((env.nixStateDir.getD "/nix/var/nix") ++
         "/profiles/per-user/" ++ u) = false →
        ((∀ s, env.xdgStateHome = some s →
            get_profile_path env none (some u) (some n) =
              Outcome.ok (s ++ "/nix/profiles/" ++ n))
         ∧ (∀ h, env.xdgStateHome = none → env.homeDir = some h →
            get_profile_path env none (some u) (some n) =
              Outcome.ok (h ++ "/.local/state" ++ "/nix/profiles/" ++ n))
         ∧ (get_profile_path env none (some u) (some n) =
              Outcome.err (GetProfilePathError.NoUserHome u) ↔
            env.xdgStateHome = none ∧ env.homeDir = none)))
    ∧ (∀ pp pu pn e, get_profile_path env pp pu pn = Outcome.err e →
        ∃ u2 n2, pp = none ∧ pu = some u2 ∧ pn = some n2 ∧ u2 ≠ "root" ∧
          env.legacyDirExists ((env.nixStateDir.getD "/nix/var/nix") ++
            "/profiles/per-user/" ++ u2) = false ∧
          env.xdgStateHome = none ∧ env.homeDir = none ∧
          e = GetProfilePathError.NoUserHome u2) := by
  refine ⟨rfl, ?_, ?_, ?_⟩
  · intro hn
    simp [get_profile_path, hn]
  · intro hu hleg
    refine ⟨?_, ?_, ?_⟩
    · intro s hx
      simp [get_profile_path, hu, hleg, hx]
    · intro h hx hh
      simp [get_profile_path, hu, hleg, hx, hh]
    · constructor
      · intro h
        rcases hx : env.xdgStateHome with _ | s
        · rcases hh : env.homeDir with _ | hm
          · exact ⟨rfl, rfl⟩
          · simp [get_profile_path, hu, hleg, hx, hh] at h
        · simp [get_profile_path, hu, hleg, hx] at h
      · rintro ⟨hx, hh⟩
        simp [get_profile_path, hu, hleg, hx, hh]
  · intro pp pu pn e h
    rcases pp with _ | p
    · rcases pu with _ | u2
      · rcases pn with _ | n2 <;> simp [get_profile_path] at h
      · rcases pn with _ | n2
        · simp [get_profile_path] at h
        · by_cases hu2 : u2 = "root"
          · subst hu2
            by_cases hn2 : n2 = "system" <;> simp [get_profile_path, hn2] at h
          · rcases hleg : env.legacyDirExists ((env.nixStateDir.getD "/nix/var/nix") ++
              "/profiles/per-user/" ++ u2) with _ | _
            · rcases hx : env.xdgStateHome with _ | s
              · rcases hh : env.homeDir with _ | hm
                · refine ⟨u2, n2, rfl, rfl, rfl, hu2, hleg, rfl, rfl, ?_⟩
                  simp [get_profile_path, hu2, hx, hh, hleg] at h
                  exact h.symm
                · simp [get_profile_path, hu2, hx, hh, hleg] at h
              · simp [get_profile_path, hu2, hx, hleg] at h
            · simp [get_profile_path, hu2, hleg] at h
    · rcases pu with _ | u2 <;> rcases pn with _ | n2 <;>
        simp [get_profile_path] at h

/-- Witness for claim C8 at concrete environments: the three resolution
shapes (root/system, root/other, non-root under the home fallback) and the
no-home error when nothing is available. -/
theorem claim8_witness :
    get_profile_path pEnvHomeOnly none (some "root") (some "system") =
      Outcome.ok ((pEnvHomeOnly.nixStateDir.getD "/nix/var/nix") ++
        "/profiles/system")
    ∧ get_profile_path pEnvHomeOnly none (some "root") (some "foo") =
      Outcome.ok ((pEnvHomeOnly.nixStateDir.getD "/nix/var/nix") ++
        "/profiles/per-user/root/" ++ "foo")
    ∧ get_profile_path pEnvHomeOnly none (some "alice") (some "foo") =
      Outcome.ok ("/home/alice" ++ "/.local/state" ++ "/nix/profiles/" ++ "foo")
    ∧ get_profile_path pEnvNothing none (some "alice") (some "foo") =
      Outcome.err (GetProfilePathError.NoUserHome "alice") :=
  ⟨(claim8_profile_path_resolution pEnvHomeOnly "alice" "foo").1,
   (claim8_profile_path_resolution pEnvHomeOnly "alice" "foo").2.1 (by decide),
   ((claim8_profile_path_resolution pEnvHomeOnly "alice" "foo").2.2.1
      (by decide) rfl).2.1 "/home/alice" rfl rfl,
   ((claim8_profile_path_resolution pEnvNothing "alice" "foo").2.2.1
      (by decide) rfl).2.2.mpr ⟨rfl, rfl⟩⟩

/-! ## Byte-arithmetic lemmas for `make_lock_path` (claims C7, C10) -/

/-- UTF-8 length distributes over concatenation. -/
theorem utf8Len_append (xs ys : List Char) :
    utf8Len (xs ++ ys) = utf8Len xs + utf8Len ys := by
  simp [utf8Len]

/-- UTF-8 length of a cons. -/
theorem utf8Len_cons (c : Char) (cs : List Char) :
    utf8Len (c :: cs) = c.utf8Size + utf8Len cs := by
  simp [utf8Len]

/-- Searching in a concatenation whose first part does not contain the
target lands in the second part, offset by the first part's byte length. -/
theorem findCharByte_append_not_mem (t : Char) (xs ys : List Char)
    (h : t ∉ xs) :
    findCharByte t (xs ++ ys) = (findCharByte t ys).map (fun p => utf8Len xs + p) := by
  induction xs with
  | nil =>
    simp [utf8Len]
  | cons c cs ih =>
    rw [List.mem_cons] at h
    push_neg at h
    obtain ⟨hct, hcs⟩ := h
    rw [List.cons_append]
    rw [findCharByte]
    rw [if_neg (fun hc => hct hc.symm)]
    rw [ih hcs]
    cases findCharByte t ys <;> simp [utf8Len_cons, Nat.add_assoc]

/-- The byte length of a prefix is always a character boundary of the
concatenation. -/
theorem charBoundary_append (xs ys : List Char) :
    charBoundary (xs ++ ys) (utf8Len xs) = true := by
  induction xs with
  | nil => simp [utf8Len, charBoundary]
  | cons c cs ih =>
    have hpos := Char.utf8Size_pos c
    have hsz : utf8Len (c :: cs) = c.utf8Size + utf8Len cs := utf8Len_cons c cs
    obtain ⟨m, hm⟩ : ∃ m, utf8Len (c :: cs) = m + 1 := ⟨utf8Len (c :: cs) - 1, by omega⟩
    rw [List.cons_append, hm, charBoundary]
    rw [if_neg (by omega)]
    have hrest : m + 1 - c.utf8Size = utf8Len cs := by omega
    rw [hrest]
    exact ih

/-- Dropping exactly the bytes of a prefix uncovers the suffix. -/
theorem byteDrop_append (xs ys : List Char) :
    byteDrop (xs ++ ys) (utf8Len xs) = ys := by
  induction xs with
  | nil => simp [utf8Len, byteDrop]
  | cons c cs ih =>
    have hpos := Char.utf8Size_pos c
    have hsz : utf8Len (c :: cs) = c.utf8Size + utf8Len cs := utf8Len_cons c cs
    obtain ⟨m, hm⟩ : ∃ m, utf8Len (c :: cs) = m + 1 := ⟨utf8Len (c :: cs) - 1, by omega⟩
    rw [List.cons_append, hm, byteDrop]
    have hrest : m + 1 - c.utf8Size = utf8Len cs := by omega
    rw [hrest]
    exact ih

/-- Taking exactly the bytes of a prefix yields the prefix. -/
theorem byteTake_append (xs ys : List Char) :
    byteTake (xs ++ ys) (utf8Len xs) = xs := by
  induction xs with
  | nil => simp [utf8Len, byteTake]
  | cons c cs ih =>
    have hpos := Char.utf8Size_pos c
    have hsz : utf8Len (c :: cs) = c.utf8Size + utf8Len cs := utf8Len_cons c cs
    obtain ⟨m, hm⟩ : ∃ m, utf8Len (c :: cs) = m + 1 := ⟨utf8Len (c :: cs) - 1, by omega⟩
    rw [List.cons_append, hm, byteTake]
    have hrest : m + 1 - c.utf8Size = utf8Len cs := by omega
    rw [hrest]
    rw [ih]

/-- A found byte index is always strictly inside the string. -/
theorem findCharByte_lt (t : Char) (cs : List Char) (p : Nat)
    (h : findCharByte t cs = some p) : p < utf8Len cs := by
  induction cs generalizing p with
  | nil => simp [findCharByte] at h
  | cons c l ih =>
    have hpos := Char.utf8Size_pos c
    rw [findCharByte] at h
    by_cases hc : c = t
    · rw [if_pos hc] at h
      simp at h
      rw [utf8Len_cons]
      omega
    · rw [if_neg hc] at h
      rcases hq : findCharByte t l with _ | q
      · rw [hq] at h
        simp at h
      · rw [hq] at h
        simp at h
        have := ih q hq
        rw [utf8Len_cons]
        omega

/-- Claim C7: for every closure reference starting with the store-path
prefix and containing a `-` after it (`hash` is the part strictly between
the prefix and the first `-`, so it contains no `-` itself),
`make_lock_path` returns `<temp_path>/deploy-rs-canary-<hash>`.  The
embedding is a pure function of `(temp_path, closure)`, so repeated calls
with the same input return this same path. -/
theorem claim7_canary_path_deterministic (temp hash rest : String)
    (hnd : '-' ∉ hash.data) :
    make_lock_path temp ("/nix/store/" ++ hash ++ "-" ++ rest) =
      some (rustPathJoin temp ("deploy-rs-canary-" ++ hash)) := by
  have hP : '-' ∉ "/nix/store/".data := by decide
  have hdata : ("/nix/store/" ++ hash ++ "-" ++ rest).data
      = "/nix/store/".data ++ (hash.data ++ '-' :: rest.data) := by
    simp [String.data_append]
  have h1 : findCharByte '-' ('-' :: rest.data) = some 0 := by
    rw [findCharByte, if_pos rfl]
  have h2 : findCharByte '-' (hash.data ++ '-' :: rest.data)
      = some (utf8Len hash.data) := by
    rw [findCharByte_append_not_mem '-' hash.data _ hnd, h1]
    simp
  have h3 : findCharByte '-' ("/nix/store/".data ++ (hash.data ++ '-' :: rest.data))
      = some (utf8Len "/nix/store/".data + utf8Len hash.data) := by
    rw [findCharByte_append_not_mem '-' _ _ hP, h2]
    simp
  have hb2 : utf8Len ("/nix/store/".data ++ hash.data)
      = utf8Len "/nix/store/".data + utf8Len hash.data := utf8Len_append _ _
  have hcond : utf8Len "/nix/store/".data ≤
        utf8Len "/nix/store/".data + utf8Len hash.data
      ∧ utf8Len "/nix/store/".data + utf8Len hash.data
          ≤ utf8Len ("/nix/store/".data ++ (hash.data ++ '-' :: rest.data))
      ∧ charBoundary ("/nix/store/".data ++ (hash.data ++ '-' :: rest.data))
          (utf8Len "/nix/store/".data) = true
      ∧ charBoundary ("/nix/store/".data ++ (hash.data ++ '-' :: rest.data))
          (utf8Len "/nix/store/".data + utf8Len hash.data) = true := by
    refine ⟨Nat.le_add_right _ _, ?_, charBoundary_append _ _, ?_⟩
    · rw [utf8Len_append, utf8Len_append, utf8Len_cons]
      have := Char.utf8Size_pos '-'
      omega
    · rw [← List.append_assoc, ← hb2]
      exact charBoundary_append _ _
  simp only [make_lock_path, hdata, h3, Option.getD_some]
  rw [rustByteSlice, if_pos ⟨hcond.1, hcond.2.1, hcond.2.2.1, hcond.2.2.2⟩]
  rw [byteDrop_append]
  have hsub : utf8Len "/nix/store/".data + utf8Len hash.data -
      utf8Len "/nix/store/".data = utf8Len hash.data := by omega
  rw [hsub, byteTake_append]
  rfl

/-- Witness for claim C7: the canonical store path of a closure named
`abcd-system` yields the canary path for hash `abcd`. -/
theorem claim7_witness :
    make_lock_path "/tmp" ("/nix/store/" ++ "abcd" ++ "-" ++ "system") =
      some (rustPathJoin "/tmp" ("deploy-rs-canary-" ++ "abcd")) :=
  claim7_canary_path_deterministic "/tmp" "abcd" "system" (by decide)

/-- Claim C10: `make_lock_path` is partial — for every closure string whose
byte length is below the store-path prefix's 11 bytes, or whose first `-`
occurs at a byte index below 11, or where byte index 11 is not a character
boundary, the Rust byte-range slice panics (the `none` outcome of the
embedded slice) instead of producing a path or an error. -/
theorem claim10_make_lock_path_partial (temp closure : String)
    (h : utf8Len closure.data < utf8Len "/nix/store/".data
      ∨ (∃ p, findCharByte '-' closure.data = some p ∧
          p < utf8Len "/nix/store/".data)
      ∨ charBoundary closure.data (utf8Len "/nix/store/".data) = false) :
    make_lock_path temp closure = none := by
  simp only [make_lock_path]
  rcases hf : findCharByte '-' closure.data with _ | p
  · simp only [Option.getD_none]
    rcases h with h | ⟨q, hq, hlt⟩ | h
    · rw [rustByteSlice, if_neg (fun hc => by
        have h1 := hc.1
        have hA : utf8Len ['/', 'n', 'i', 'x', '/', 's', 't', 'o', 'r', 'e', '/'] = 11 := by
          decide
        have hB : utf8Len "/nix/store/".data = 11 := by decide
        omega)]
      rfl
    · rw [hf] at hq
      exact absurd hq (by simp)
    · rw [rustByteSlice, if_neg (fun hc => by
        have h4 := hc.2.2.1
        rw [h] at h4
        exact Bool.noConfusion h4)]
      rfl
  · simp only [Option.getD_some]
    rcases h with h | ⟨q, hq, hlt⟩ | h
    · have hp := findCharByte_lt '-' closure.data p hf
      rw [rustByteSlice, if_neg (fun hc => by
        have h1 := hc.1
        have hA : utf8Len ['/', 'n', 'i', 'x', '/', 's', 't', 'o', 'r', 'e', '/'] = 11 := by
          decide
        have hB : utf8Len "/nix/store/".data = 11 := by decide
        omega)]
      rfl
    · rw [hf] at hq
      have hpq : p = q := by injection hq
      rw [rustByteSlice, if_neg (fun hc => by
        have h1 := hc.1
        have hA : utf8Len ['/', 'n', 'i', 'x', '/', 's', 't', 'o', 'r', 'e', '/'] = 11 := by
          decide
        have hB : utf8Len "/nix/store/".data = 11 := by decide
        omega)]
      rfl
    · rw [rustByteSlice, if_neg (fun hc => by
        have h4 := hc.2.2.1
        rw [h] at h4
        exact Bool.noConfusion h4)]
      rfl

/-- Witness for claim C10: the 3-byte closure string "abc" (shorter than
the prefix) makes the function panic. -/
theorem claim10_witness : make_lock_path "/tmp" "abc" = none :=
  claim10_make_lock_path_partial "/tmp" "abc" (Or.inl (by decide))
